import Mathlib

/-!
# Verification of the k8-dojo TUI core

Shallow embedding of the two core subsystems of the k8-dojo trainer:

* the embedded terminal session manager (`TermState`, mirroring
  `TerminalModel` in `pkg/tui/components`: `Start`, `Stop`, `SendInput`,
  `Update`, the background reader loop `readOutput`, and the renderer's
  colour/contrast logic `isLightColor` / the cell-colour resolution in
  `View`), and
* the cooperative UI event loop (`AppState`, mirroring `AppModel` in
  `pkg/tui/app.go`: the bootstrap progress synchronizer, the view/focus
  state machine and the confirm modals).

Go machine values are embedded as plain Lean data: pointers/handles become
`Option`/`Bool` flags, the pty byte stream and the in-process filesystem
become explicit lists, `float64` progress percentages become `ℚ` (the code
only ever manipulates exact small fractions `k/len(steps)`, so order is
preserved), and each Bubbletea `Update` branch becomes a case of a pure
step function returning the new state plus the list of commands it issued.
-/

namespace K8sDojo

/-! ## Terminal session manager (`TerminalModel`) -/

/-- The only message the terminal posts to the event loop
(`TerminalOutputMsg`). -/
inductive TMsg
  | outputMsg
deriving DecidableEq, Repr

/-- The stored `exec.Cmd` handle: `started` records whether `cmd.Start`
(via `pty.Start`) succeeded, i.e. whether `cmd.Process != nil`. -/
structure CmdHandle where
  started : Bool
deriving DecidableEq, Repr

/-- State of `TerminalModel` (src/unnamed/part_001). `disk` models the set
of credential temp files currently existing on disk; `termText` the chunks
merged into the vt10x emulator; `spawnCount` the number of child shells
ever spawned; `program` whether the `tea.Program` reference is set. -/
structure TermState where
  ptyOpen : Bool
  cmd : Option CmdHandle
  running : Bool
  focused : Bool
  kubeconfig : String
  kubeconfigPath : Option String
  disk : List String
  termText : List String
  spawnCount : Nat
  program : Bool
deriving DecidableEq, Repr

/-- Environment/oracle for one `Start()` call: whether `os.CreateTemp`
succeeds, whether the write to the temp file succeeds, whether `pty.Start`
succeeds, and the temp file's generated name. -/
structure StartEnv where
  tmpOk : Bool
  writeOk : Bool
  spawnOk : Bool
  tmpName : String
deriving DecidableEq, Repr

/-- `os.Remove` on the modelled disk. -/
def removeFile (disk : List String) (p : String) : List String :=
  disk.erase p

/-- `TerminalModel.Start` (part_001:119-189). Returns the new state and the
`tea.Msg` the command returns (`none` models Go's `nil`). The `exec.Cmd`
is assigned before the credential/temp-file logic; on `pty.Start` failure
the just-created credential file is removed and the path cleared; on
success the welcome line is written to the emulator and the reader
goroutine is launched. -/
def start (m : TermState) (env : StartEnv) : TermState × Option TMsg :=
  if m.running then (m, none)
  else
    -- m.cmd = exec.Command(m.shell) with injected environment
    let m1 : TermState := { m with cmd := some ⟨false⟩ }
    -- credential temp file, only when a kubeconfig blob was supplied
    let credential : Option (TermState × Option TMsg) :=
      if m1.kubeconfig ≠ "" then
        if ¬ env.tmpOk then some (m1, some .outputMsg)
        else if ¬ env.writeOk then
          -- file created, write failed: close and remove it again
          some ({ m1 with disk := removeFile (env.tmpName :: m1.disk) env.tmpName },
                some .outputMsg)
        else none
      else none
    match credential with
    | some r => r
    | none =>
      let m2 : TermState :=
        if m1.kubeconfig ≠ "" then
          { m1 with kubeconfigPath := some env.tmpName, disk := env.tmpName :: m1.disk }
        else m1
      -- pty.Start(cmd)
      if ¬ env.spawnOk then
        match m2.kubeconfigPath with
        | some p =>
            ({ m2 with disk := removeFile m2.disk p, kubeconfigPath := none },
             some .outputMsg)
        | none => (m2, some .outputMsg)
      else
        ({ m2 with
            ptyOpen := true
            cmd := some ⟨true⟩
            running := true
            termText := m2.termText ++ ["Terminal ready. Use kubectl commands below:"]
            spawnCount := m2.spawnCount + 1 },
         some .outputMsg)

/-- Result of one blocking `Read` on the pty, as seen by the reader
goroutine. -/
inductive ReadEvent
  | data (chunk : String)
  | eof
  | readErr
deriving DecidableEq, Repr

/-- One iteration of the reader loop `TerminalModel.readOutput`
(part_001:192-238): returns the new state, the number of
`TerminalOutputMsg` notifications delivered to the event loop in this
iteration, and whether the loop exits. A non-EOF read error writes
"Terminal closed", clears `running` and notifies once; `io.EOF` makes the
loop return silently. -/
def readIter (m : TermState) (ev : ReadEvent) : TermState × Nat × Bool :=
  if ¬ m.running ∨ ¬ m.ptyOpen then (m, 0, true)
  else
    match ev with
    | .readErr =>
        let m' := { m with termText := m.termText ++ ["\nTerminal closed"], running := false }
        (m', if m.program then 1 else 0, true)
    | .eof => (m, 0, true)
    | .data chunk =>
        let m' := { m with termText := m.termText ++ [chunk] }
        (m', if m.program then 1 else 0, false)

/-- `TerminalModel.Stop` (part_001:241-282). Early-returns when not
running; otherwise clears `running`, closes the pty, (after the bounded
grace period, which has no state effect here) signals the process if one
was started, removes the credential file if present and resets the
emulator. -/
def stop (m : TermState) : TermState :=
  if ¬ m.running then m
  else
    let m1 := { m with running := false }
    let m2 := if m1.ptyOpen then { m1 with ptyOpen := false } else m1
    -- wg.Wait with 500ms timeout: no state effect; cmd.Process.Signal: no
    -- modelled state effect
    let m3 :=
      match m2.kubeconfigPath with
      | some p => { m2 with disk := removeFile m2.disk p, kubeconfigPath := none }
      | none => m2
    -- m.term = vt10x.New(...): fresh emulator
    { m3 with termText := [] }

/-- `TerminalModel.SendInput` (part_001:334-341): write the string to the
pty iff the pty handle is present and the session is running. Returns the
chunks actually delivered to the process's input stream. -/
def sendInput (m : TermState) (input : String) : TermState × List String :=
  if m.ptyOpen ∧ m.running then (m, [input]) else (m, [])

/-- Key events reaching `TerminalModel.Update` (`tea.KeyMsg`). -/
inductive TKey
  | paste (text : String)
  | enter | backspace | tab | ctrlC | ctrlD | ctrlZ | ctrlL
  | up | down | left | right | home | endKey | delete | pgUp | pgDown
  | runes (text : String)
  | space | esc
  | otherKey (s : String)
deriving DecidableEq, Repr

/-- The key translation performed by `TerminalModel.Update`
(part_001:357-410): the byte string sent for a key, or `none` when the key
is swallowed (Tab, and multi-byte unknown keys). -/
def translateKey (k : TKey) : Option String :=
  match k with
  | .paste t => some ("\x1b[200~" ++ t ++ "\x1b[201~")
  | .enter => some "\r"
  | .backspace => some "\x7f"
  | .tab => none
  | .ctrlC => some "\x03"
  | .ctrlD => some "\x04"
  | .ctrlZ => some "\x1a"
  | .ctrlL => some "\x0c"
  | .up => some "\x1b[A"
  | .down => some "\x1b[B"
  | .left => some "\x1b[D"
  | .right => some "\x1b[C"
  | .home => some "\x1b[H"
  | .endKey => some "\x1b[F"
  | .delete => some "\x1b[3~"
  | .pgUp => some "\x1b[5~"
  | .pgDown => some "\x1b[6~"
  | .runes t => some t
  | .space => some " "
  | .esc => some "\x1b"
  | .otherKey s => if s.length = 1 then some s else none

/-- `TerminalModel.Update` (part_001:348-414): drop every key when the
terminal is not focused, otherwise translate it and send it through
`SendInput`. Returns the new state and the chunks delivered to the
process. -/
def termUpdate (m : TermState) (k : TKey) : TermState × List String :=
  if ¬ m.focused then (m, [])
  else
    match translateKey k with
    | some s => sendInput m s
    | none => (m, [])

/-! ## Renderer colour logic (`isLightColor` and `TerminalModel.View`) -/

/-- `DefaultFG_Int` in `TerminalModel.View`: vt10x sentinel for the
implicit foreground. -/
def defaultFGInt : Nat := 16777216

/-- `DefaultBG_Int` in `TerminalModel.View`: vt10x sentinel for the
implicit background. -/
def defaultBGInt : Nat := 16777217

/-- A lipgloss colour as produced by `TerminalModel.View`: no colour
(transparent), a hex string, or a palette index rendered as a decimal
string. -/
inductive TColor
  | noColor
  | hex (s : String)
  | indexed (n : Nat)
deriving DecidableEq, Repr

/-- `isLightColor` (part_001:525-555), translated branch for branch. -/
def isLightColor (c : Nat) : Bool :=
  if c = 7 ∨ c = 15 then true
  else if 9 ≤ c ∧ c ≤ 14 then true
  else if 244 ≤ c then true
  else if 16 ≤ c ∧ c ≤ 231 then
    let val := c - 16
    let b := val % 6
    let val := val / 6
    let g := val % 6
    let r := val / 6
    decide (9 ≤ r + g + b)
  else false

/-- The spec's classification of a light background, written from the
spec's own words ("index is 7, 15, or in range 9–14, or ≥244, or — for
colour-cube indices 16–231 — the quantized (R+G+B) sum of its three
components is ≥9"), for comparison against `isLightColor`. -/
def isLightColorSpec (c : Nat) : Bool :=
  decide (c = 7 ∨ c = 15 ∨ (9 ≤ c ∧ c ≤ 14) ∨ 244 ≤ c ∨
    (16 ≤ c ∧ c ≤ 231 ∧ 9 ≤ (c - 16) / 36 + (c - 16) / 6 % 6 + (c - 16) % 6))

/-- Background resolution in `TerminalModel.View` (part_001:449-461):
returns the chosen background colour and the `hasCustomBG` flag. -/
def mapBG (bg : Nat) : TColor × Bool :=
  if bg = defaultBGInt then (.noColor, false)
  else if bg = defaultFGInt then (.hex "#4c4f69", true)
  else (.indexed bg, true)

/-- Foreground resolution in `TerminalModel.View` (part_001:463-470). -/
def mapFG (fg : Nat) : TColor :=
  if fg = defaultFGInt then .hex "#4c4f69"
  else if fg = defaultBGInt then .hex "#eff1f5"
  else .indexed fg

/-- Contrast correction in `TerminalModel.View` (part_001:472-490): on a
custom background, a light background forces black text, and the
inverse-video sentinel background forces the theme's light text. -/
def contrastFG (bg : Nat) (hasCustomBG : Bool) (fgColor : TColor) : TColor :=
  if hasCustomBG then
    let isLight := if bg = defaultFGInt then false else isLightColor bg
    let fg1 := if isLight then TColor.hex "#000000" else fgColor
    if bg = defaultFGInt then TColor.hex "#eff1f5" else fg1
  else fgColor

/-- The per-cell colour resolution of `TerminalModel.View`
(part_001:436-500): final foreground, final background (`noColor` when no
custom background is applied) and the reverse-video flag used for the
cursor cell. -/
def resolveCell (fg bg : Nat) (focused atCursor : Bool) :
    TColor × TColor × Bool :=
  let bgr := mapBG bg
  let fgColor := contrastFG bg bgr.2 (mapFG fg)
  (fgColor, if bgr.2 then bgr.1 else .noColor, focused && atCursor)

/-! ## Cooperative event loop / UI state machine (`AppModel`, pkg/tui/app.go)

Keys are embedded as the strings Bubbletea reports (`"q"`, `"esc"`,
`"enter"`, ...); `key.Matches` against a binding becomes membership in the
binding's key list from `DefaultKeyMap`. Component-internal state that
never influences view transitions or command scheduling (sidebar list
cursor, content viewport, spinner, header timer, layout) is not part of
the embedded state; the embedded terminal's own state is `TermState`
above. -/

/-- `View` (app.go:33-43). -/
inductive View
  | versionSelect | bootstrap | dashboard | scenarioRunning
  | success | confirmRestart | confirmQuit
deriving DecidableEq, Repr

/-- `FocusArea` (app.go:24-30). -/
inductive FocusArea
  | sidebar | content | terminal
deriving DecidableEq, Repr

/-- `ProgressStep` (components/progress.go). -/
structure ProgressStep where
  label : String
  complete : Bool
  active : Bool
deriving DecidableEq, Repr

/-- `steps[i] = f steps[i]`, out-of-range indices left untouched (Go never
indexes out of range here; the guards are in the handlers). -/
def modifyStep (l : List ProgressStep) (i : Nat) (f : ProgressStep → ProgressStep) :
    List ProgressStep :=
  match l, i with
  | [], _ => []
  | s :: t, 0 => f s :: t
  | s :: t, n + 1 => s :: modifyStep t n f

/-- The commands (`tea.Cmd`) the handlers issue. `settleDelay` is the
500ms `tea.Tick` producing `finalDelayMsg` — the "bootstrap finished"
signal of the synchronizer; `tickProgress` the 800ms tick producing
`progressTickMsg`; `checkTick` the `checkInterval` tick producing
`tickMsg`. -/
inductive Cmd
  | doBootstrap
  | tickProgress
  | settleDelay
  | cleanupQuit
  | startScenario
  | terminalStart
  | checkTick
  | checkScenario
deriving DecidableEq, Repr

/-- The messages of the event loop that reach `AppModel.Update` and are
relevant to the embedded state (spinner ticks and window-size messages
touch only un-embedded component state). For `bootstrapDoneMsg`, `err` is
the provisioning error and `clientErr` the result of
`k8s.NewClientFromKubeconfig` on the returned kubeconfig. -/
inductive Msg
  | key (k : String)
  | progressTick
  | bootstrapDone (err : Option String) (clientErr : Option String)
  | finalDelay
  | scenarioStarted (err : Option String)
  | checkResult (solved : Bool) (message : String)
  | tick
  | terminalOutput
deriving DecidableEq, Repr

/-- The embedded fields of `AppModel` (app.go:46-104). `registry` is the
list of scenario ids `registry.List()` would return; `sidebarSelected` the
sidebar's selected item as `(id, isCategory)`; `engineReady` whether
`engineInstance != nil`. -/
structure AppState where
  view : View
  previousView : View
  focus : FocusArea
  versionsCount : Nat
  selectedVersion : Nat
  steps : List ProgressStep
  bootstrapStep : Nat
  percent : ℚ
  title : String
  subtitle : String
  bootstrapRealDone : Bool
  bootstrapErr : Option String
  confirmSelection : Nat
  engineReady : Bool
  registry : List String
  completedScenarios : List String
  sidebarSelected : Option (String × Bool)
  currentScenario : Option String
  contentStatus : String
  contentSolved : Bool
  lastCheckSolved : Bool
  lastCheckMessage : String
  successButton : Nat
  quitting : Bool
deriving DecidableEq, Repr

/-- Key lists of `DefaultKeyMap` (keymap.go). -/
def quitKeys : List String := ["q", "ctrl+c"]
def escapeKeys : List String := ["esc"]
def tabKeys : List String := ["tab"]
def shiftTabKeys : List String := ["shift+tab"]
def upKeys : List String := ["up", "k"]
def downKeys : List String := ["down", "j"]
def leftKeys : List String := ["left", "h"]
def rightKeys : List String := ["right", "l"]
def enterKeys : List String := ["enter"]
def checkKeys : List String := ["c"]
def toggleHintsKeys : List String := ["h"]
def nextHintKeys : List String := ["n"]
def prevHintKeys : List String := ["p"]
def retryKeys : List String := ["r"]
def returnMenuKeys : List String := ["m"]

/-- `key.Matches`. -/
def kmatches (k : String) (binding : List String) : Bool := k ∈ binding

/-- The fixed bootstrap step list created on entering the Bootstrap view
(app.go:507-513); the first two steps are already complete. -/
def initSteps : List ProgressStep :=
  [⟨"Docker detected", true, false⟩,
   ⟨"Kind installed", true, false⟩,
   ⟨"Pulling node image", false, true⟩,
   ⟨"Starting control plane", false, false⟩,
   ⟨"Configuring kubeconfig", false, false⟩]

/-- Marking a completed scenario (`m.completedScenarios[id] = true`). -/
def addCompleted (l : List String) (id : String) : List String :=
  if id ∈ l then l else id :: l

/-- Bootstrap view entry on Enter in version select (app.go:502-523):
record the step list, start the cursor at step 2, set the initial percent
`bootstrapStep/len(steps)` and launch the provisioning task and the
animation ticker concurrently. -/
def enterBootstrap (m : AppState) : AppState × List Cmd :=
  ({ m with
      view := .bootstrap
      title := "Preparing Training Environment"
      subtitle := "Creating Kind cluster..."
      steps := initSteps
      bootstrapStep := 2
      percent := (2 : ℚ) / (initSteps.length : ℚ) },
   [.doBootstrap, .tickProgress])

/-- `AppModel.updateVersionSelect` (app.go:491-527). -/
def updateVersionSelect (m : AppState) (k : String) : AppState × List Cmd :=
  if kmatches k upKeys then
    (if 0 < m.selectedVersion then { m with selectedVersion := m.selectedVersion - 1 } else m, [])
  else if kmatches k downKeys then
    (if m.selectedVersion < m.versionsCount - 1 then
      { m with selectedVersion := m.selectedVersion + 1 } else m, [])
  else if kmatches k enterKeys then enterBootstrap m
  else (m, [])

/-- `AppModel.startSelectedScenario` (app.go:699-728): enter
ScenarioRunning, focus the terminal, fire scenario-start and
terminal-start concurrently, and deliberately do not start the check
ticker yet. -/
def startSelectedScenario (m : AppState) (id : String) : AppState × List Cmd :=
  ({ m with
      view := .scenarioRunning
      currentScenario := some id
      contentStatus := "Setting up scenario environment..."
      contentSolved := false
      focus := .terminal },
   [.startScenario, .terminalStart])

/-- `AppModel.updateDashboard` (app.go:535-561): Enter on a selected
non-category item whose id is in the registry either opens ConfirmRestart
(already completed) or starts the scenario; everything else is
sidebar-internal. -/
def updateDashboard (m : AppState) (k : String) : AppState × List Cmd :=
  if kmatches k enterKeys then
    match m.sidebarSelected with
    | some (id, false) =>
      if id ∈ m.registry then
        let m1 := { m with currentScenario := some id }
        if id ∈ m1.completedScenarios then
          ({ m1 with view := .confirmRestart, confirmSelection := 1 }, [])
        else startSelectedScenario m1 id
      else (m, [])
    | _ => (m, [])
  else (m, [])

/-- `AppModel.updateScenarioRunning` (app.go:563-607). With focus off the
terminal: `c` fires a manual check, the hint keys are content-internal,
Escape cleans up and returns to the dashboard. The trailing
focused-component update is component-internal. -/
def updateScenarioRunning (m : AppState) (k : String) : AppState × List Cmd :=
  if m.focus ≠ .terminal then
    if kmatches k checkKeys then (m, [.checkScenario])
    else if kmatches k toggleHintsKeys then (m, [])
    else if kmatches k nextHintKeys then (m, [])
    else if kmatches k prevHintKeys then (m, [])
    else if kmatches k escapeKeys then
      -- engine cleanup and m.terminal.Stop() happen synchronously here;
      -- the terminal's own state is modelled by `TermState.stop`
      ({ m with view := .dashboard, currentScenario := none }, [])
    else (m, [])
  else (m, [])

/-- `AppModel.handleReturnToDashboard` (app.go:638-663). -/
def handleReturnToDashboard (m : AppState) : AppState × List Cmd :=
  let m1 :=
    match m.currentScenario with
    | some id => { m with completedScenarios := addCompleted m.completedScenarios id }
    | none => m
  ({ m1 with
      view := .dashboard
      focus := .sidebar
      currentScenario := none
      lastCheckSolved := false
      lastCheckMessage := "" }, [])

/-- `AppModel.handleRetry` (app.go:665-675): restart the scenario and
re-arm the check ticker. -/
def handleRetry (m : AppState) : AppState × List Cmd :=
  ({ m with view := .scenarioRunning }, [.startScenario, .checkTick])

/-- `AppModel.updateSuccess` (app.go:609-636). -/
def updateSuccess (m : AppState) (k : String) : AppState × List Cmd :=
  if kmatches k leftKeys ∨ kmatches k shiftTabKeys ∨ kmatches k upKeys then
    ({ m with successButton := (m.successButton + 2 - 1) % 2 }, [])
  else if kmatches k rightKeys ∨ kmatches k tabKeys ∨ kmatches k downKeys then
    ({ m with successButton := (m.successButton + 1) % 2 }, [])
  else if kmatches k enterKeys then
    if m.successButton = 1 then handleRetry m else handleReturnToDashboard m
  else if kmatches k returnMenuKeys then handleReturnToDashboard m
  else if kmatches k retryKeys then handleRetry m
  else (m, [])

/-- `AppModel.updateConfirmRestart` (app.go:912-947). Confirming restarts
the recorded scenario (Go dereferences `m.currentScenario`, non-nil on
every reachable path); every cancel path returns to the dashboard. -/
def updateConfirmRestart (m : AppState) (k : String) : AppState × List Cmd :=
  if kmatches k leftKeys ∨ kmatches k shiftTabKeys ∨ kmatches k upKeys then
    ({ m with confirmSelection := (m.confirmSelection + 2 - 1) % 2 }, [])
  else if kmatches k rightKeys ∨ kmatches k tabKeys ∨ kmatches k downKeys then
    ({ m with confirmSelection := (m.confirmSelection + 1) % 2 }, [])
  else if kmatches k enterKeys then
    if m.confirmSelection = 0 then
      match m.currentScenario with
      | some id => startSelectedScenario m id
      | none => (m, [])
    else ({ m with view := .dashboard, currentScenario := none }, [])
  else if kmatches k escapeKeys ∨ kmatches k quitKeys then
    ({ m with view := .dashboard, currentScenario := none }, [])
  else if k = "y" then
    match m.currentScenario with
    | some id => startSelectedScenario m id
    | none => (m, [])
  else if k = "n" then
    ({ m with view := .dashboard, currentScenario := none }, [])
  else (m, [])

/-- `AppModel.updateConfirmQuit` (app.go:974-1010). Note the asymmetry in
the source: Enter on "No" goes to the dashboard, while Escape / the quit
key / `n` restore `m.previousView`. -/
def updateConfirmQuit (m : AppState) (k : String) : AppState × List Cmd :=
  if kmatches k leftKeys ∨ kmatches k shiftTabKeys ∨ kmatches k upKeys then
    ({ m with confirmSelection := (m.confirmSelection + 2 - 1) % 2 }, [])
  else if kmatches k rightKeys ∨ kmatches k tabKeys ∨ kmatches k downKeys then
    ({ m with confirmSelection := (m.confirmSelection + 1) % 2 }, [])
  else if kmatches k enterKeys then
    if m.confirmSelection = 0 then ({ m with quitting := true }, [.cleanupQuit])
    else ({ m with view := .dashboard }, [])
  else if kmatches k escapeKeys ∨ kmatches k quitKeys then
    ({ m with view := m.previousView }, [])
  else if k = "y" then ({ m with quitting := true }, [.cleanupQuit])
  else if k = "n" then ({ m with view := m.previousView }, [])
  else (m, [])

/-- Per-view key dispatch (`AppModel.Update`, app.go:292-308). The
Bootstrap view's own update only feeds the spinner. -/
def dispatchKey (m : AppState) (k : String) : AppState × List Cmd :=
  match m.view with
  | .versionSelect => updateVersionSelect m k
  | .bootstrap => (m, [])
  | .dashboard => updateDashboard m k
  | .scenarioRunning => updateScenarioRunning m k
  | .success => updateSuccess m k
  | .confirmRestart => updateConfirmRestart m k
  | .confirmQuit => updateConfirmQuit m k

/-- Tab focus cycling Sidebar → Content → Terminal → Sidebar
(app.go:204-214). -/
def cycleFocus : FocusArea → FocusArea
  | .sidebar => .content
  | .content => .terminal
  | .terminal => .sidebar

/-- Quit interception is suppressed while the terminal is focused in
ScenarioRunning (app.go:179-182). -/
def allowQuit (m : AppState) : Bool :=
  ¬ (m.view = .scenarioRunning ∧ m.focus = .terminal)

/-- The `tea.KeyMsg` arm of `AppModel.Update` (app.go:176-214 plus the
per-view dispatch): global quit handling (immediate quit from Bootstrap,
fall-through inside the modals, otherwise record the interrupted view and
open ConfirmQuit defaulting to "No"), then Tab focus cycling, then the
per-view handler. -/
def updateKey (m : AppState) (k : String) : AppState × List Cmd :=
  if allowQuit m ∧ kmatches k quitKeys ∧ m.view = .bootstrap then
    ({ m with quitting := true }, [.cleanupQuit])
  else if allowQuit m ∧ kmatches k quitKeys ∧
      ¬ (m.view = .confirmQuit ∨ m.view = .confirmRestart) then
    ({ m with previousView := m.view, view := .confirmQuit, confirmSelection := 1 }, [])
  else
    let m1 :=
      if kmatches k tabKeys ∧ m.view = .scenarioRunning then
        { m with focus := cycleFocus m.focus }
      else m
    dispatchKey m1 k

/-- The `progressTickMsg` arm of `AppModel.Update` (app.go:238-272): in
the Bootstrap view, a parked animation either schedules the settle delay
(when `realDone` is set) or displays the finalizing subtitle and stops; an
unparked animation completes the previous step, activates the current one,
sets `percent = (cursor+1)/len(steps)`, advances the cursor and schedules
the next tick. Outside Bootstrap the message is component-internal.
`tickSteps` is the step-list mutation block of the tick handler
(app.go:254-263): mark the previously active step complete/inactive (when
there is one) and mark the current step active. -/
def tickSteps (m : AppState) : List ProgressStep :=
  modifyStep
    (if 0 < m.bootstrapStep ∧ m.bootstrapStep - 1 < m.steps.length then
      modifyStep m.steps (m.bootstrapStep - 1)
        (fun s => { s with complete := true, active := false })
    else m.steps)
    m.bootstrapStep (fun s => { s with active := true })

def handleProgressTick (m : AppState) : AppState × List Cmd :=
  if m.view = .bootstrap then
    if m.bootstrapStep ≥ m.steps.length then
      if m.bootstrapRealDone then (m, [.settleDelay])
      else ({ m with subtitle := "Finalizing cluster setup..." }, [])
    else
      ({ m with
          steps := tickSteps m
          percent := ((m.bootstrapStep : ℚ) + 1) / ((tickSteps m).length : ℚ)
          bootstrapStep := m.bootstrapStep + 1 },
       [.tickProgress])
  else (m, [])

/-- `AppModel.handleBootstrapDone` (app.go:340-397): record a provisioning
or client-creation error and stop; on success mark `realDone` and, when
the animation has already parked, force every step complete, force 100%
and schedule the settle delay — otherwise let the ticking animation
observe the flag. -/
def handleBootstrapDone (m : AppState) (err clientErr : Option String) :
    AppState × List Cmd :=
  match err with
  | some e => ({ m with bootstrapErr := some e }, [])
  | none =>
    match clientErr with
    | some e => ({ m with bootstrapErr := some e }, [])
    | none =>
      let m1 := { m with engineReady := true, bootstrapRealDone := true }
      if m1.bootstrapStep ≥ m1.steps.length then
        ({ m1 with
            subtitle := "Cluster ready!"
            steps := m1.steps.map (fun s => { s with complete := true, active := false })
            percent := 1 },
         [.settleDelay])
      else (m1, [])

/-- `AppModel.finalizeBootstrap` (app.go:399-405). -/
def finalizeBootstrap (m : AppState) : AppState × List Cmd :=
  ({ m with view := .dashboard, focus := .sidebar }, [])

/-- The `scenarioStartedMsg` arm of `AppModel.Update` (app.go:277-285):
only a successful start arms the solved-check ticker. -/
def handleScenarioStarted (m : AppState) (err : Option String) : AppState × List Cmd :=
  match err with
  | some e =>
      ({ m with contentStatus := "Failed to start scenario: " ++ e, contentSolved := false }, [])
  | none =>
      ({ m with
          contentStatus := "Scenario started. Use kubectl in the terminal below to investigate!"
          contentSolved := false }, [.checkTick])

/-- `AppModel.handleCheckResult` (app.go:464-489): a solved check persists
completion and transitions to Success without re-arming; every other
outcome re-arms the ticker. -/
def handleCheckResult (m : AppState) (solved : Bool) (message : String) :
    AppState × List Cmd :=
  let m1 := { m with lastCheckSolved := solved, lastCheckMessage := message }
  if m1.engineReady then
    let m2 := { m1 with contentStatus := message, contentSolved := solved }
    if solved then
      let m3 :=
        match m2.currentScenario with
        | some id => { m2 with completedScenarios := addCompleted m2.completedScenarios id }
        | none => m2
      ({ m3 with view := .success }, [])
    else (m2, [.checkTick])
  else (m1, [.checkTick])

/-- `AppModel.Update` (app.go:172-311) restricted to the embedded state:
one step of the cooperative event loop, returning the new state and the
commands issued. -/
def update (m : AppState) (msg : Msg) : AppState × List Cmd :=
  match msg with
  | .key k => updateKey m k
  | .progressTick => handleProgressTick m
  | .bootstrapDone err clientErr => handleBootstrapDone m err clientErr
  | .finalDelay => finalizeBootstrap m
  | .scenarioStarted err => handleScenarioStarted m err
  | .checkResult solved message => handleCheckResult m solved message
  | .tick => if m.view = .scenarioRunning then (m, [.checkScenario]) else (m, [])
  | .terminalOutput => (m, [])

/-- The run of the event loop on a message list: the sequence of
(post-state, commands-issued) pairs, one per processed message. -/
def traceFrom (m : AppState) : List Msg → List (AppState × List Cmd)
  | [] => []
  | msg :: rest =>
    let r := update m msg
    r :: traceFrom r.1 rest

/-- Processing a message list to its final state. -/
def runMsgs (m : AppState) (msgs : List Msg) : AppState :=
  match msgs with
  | [] => m
  | msg :: rest => runMsgs (update m msg).1 rest

/-! ## Concrete states used by witnesses and counterexamples -/

/-- A freshly constructed terminal (`NewTerminalModel`) after
`SetKubeconfig`, `SetProgram` and `SetFocus(true)`. -/
def termFresh : TermState :=
  { ptyOpen := false
    cmd := none
    running := false
    focused := true
    kubeconfig := "apiVersion: v1"
    kubeconfigPath := none
    disk := []
    termText := []
    spawnCount := 0
    program := true }

/-- A fully successful `Start()` environment. -/
def envOk : StartEnv :=
  { tmpOk := true, writeOk := true, spawnOk := true
    tmpName := "/tmp/k8s-dojo-1.kubeconfig" }

/-- An environment whose `pty.Start` fails after the credential file was
created. -/
def envSpawnFail : StartEnv :=
  { tmpOk := true, writeOk := true, spawnOk := false
    tmpName := "/tmp/k8s-dojo-2.kubeconfig" }

/-- The session after a successful `Start()` with a credential. -/
def termRunning : TermState := (start termFresh envOk).1

/-- The session after the reader goroutine hit a non-EOF read error:
`running` was cleared by the reader, the credential file is still on
disk. -/
def termAborted : TermState := (readIter termRunning ReadEvent.readErr).1

/-- The application at startup (`NewAppModel`), with a two-entry version
list and a one-scenario registry standing in for the concrete catalog. -/
def app0 : AppState :=
  { view := .versionSelect
    previousView := .versionSelect
    focus := .sidebar
    versionsCount := 2
    selectedVersion := 0
    steps := []
    bootstrapStep := 0
    percent := 0
    title := ""
    subtitle := ""
    bootstrapRealDone := false
    bootstrapErr := none
    confirmSelection := 0
    engineReady := false
    registry := ["sched-taint"]
    completedScenarios := []
    sidebarSelected := none
    currentScenario := none
    contentStatus := ""
    contentSolved := false
    lastCheckSolved := false
    lastCheckMessage := ""
    successButton := 0
    quitting := false }

/-- The application sitting in the Bootstrap view right after entry. -/
def appBoot : AppState := runMsgs app0 [.key "enter"]

/-- A concrete bootstrap run: entry, three animation ticks (parking the
animation at the end of the step list), the successful completion event
(which schedules the settle delay), one more tick. -/
def bootMsgs : List Msg :=
  [.key "enter", .progressTick, .progressTick, .progressTick,
   .bootstrapDone none none, .progressTick]

/-- The messages driving the Bootstrap Progress Synchronizer: animation
ticks, real-task completion events and the settle-delay expiry. -/
def isBootEvent : Msg → Bool
  | .progressTick => true
  | .finalDelay => true
  | .bootstrapDone _ _ => true
  | _ => false

/-- Invariant of the Bootstrap view's animation state: five steps, and the
displayed percent never exceeds `cursor/5` nor 100%. It holds on entry
(`percent = 2/5`, `cursor = 2`) and is preserved by every synchronizer
event. -/
def BootInv (m : AppState) : Prop :=
  m.steps.length = 5 ∧ m.percent ≤ (m.bootstrapStep : ℚ) / 5 ∧ m.percent ≤ 1

/-- Mid-animation bootstrap state after the provisioning task reported an
error: the error is recorded, `realDone` is still false, the cursor is at
3 of 5. -/
def appErrMid : AppState :=
  runMsgs app0 [.key "enter", .progressTick, .bootstrapDone (some "provisioning failed") none]

/-- The application in the Success view (fields as after a solved check,
with the scenario still current). -/
def appSuccess : AppState :=
  { app0 with
      view := .success
      engineReady := true
      bootstrapRealDone := true
      currentScenario := some "sched-taint"
      completedScenarios := ["sched-taint"] }

/-- The application in the Dashboard with an already-completed scenario
selected in the sidebar. -/
def appDash : AppState :=
  { app0 with
      view := .dashboard
      engineReady := true
      bootstrapRealDone := true
      sidebarSelected := some ("sched-taint", false)
      completedScenarios := ["sched-taint"] }

/-! ## Helper lemmas -/

/-- `Start()` on a running session is a complete no-op returning `nil`. -/
theorem start_running_noop (m : TermState) (env : StartEnv) (h : m.running = true) :
    start m env = (m, none) := by
  simp [start, h]

/-- `Stop()` always leaves the session not running. -/
theorem stop_not_running (m : TermState) : (stop m).running = false := by
  by_cases h : m.running = true
  · simp only [stop, h, not_true_eq_false, if_false]
    split <;> split <;> rfl
  · simp only [stop, Bool.not_eq_true] at h ⊢
    simp [h]

/-! ## Claim C5: reader-task termination behaviour -/

/-- C5 counterexample: the claim states that on EOF the reader marks
`running=false` and delivers one final notification. In the source
(`readOutput`, part_001:206-222) the mark-and-notify block is guarded by
`err != io.EOF`, so on EOF the reader exits silently: from a running
session with the program reference set, the state is unchanged (running
stays true) and zero notifications are delivered. -/
theorem reader_eof_cex :
    termRunning.running = true ∧ termRunning.program = true ∧
    (readIter termRunning ReadEvent.eof).1.running = true ∧
    (readIter termRunning ReadEvent.eof).2 = (0, true) := by decide

/-- C5 (amended): a **non-EOF** read error marks `running=false` and
delivers exactly one final "output available" notification before the
reader exits; an EOF makes the reader exit silently, with no state change
and no notification. -/
theorem reader_error_termination (m : TermState)
    (hr : m.running = true) (hp : m.ptyOpen = true) (hprog : m.program = true) :
    ((readIter m .readErr).1.running = false ∧
     (readIter m .readErr).2 = (1, true)) ∧
    ((readIter m .eof).1 = m ∧ (readIter m .eof).2 = (0, true)) := by
  simp [readIter, hr, hp, hprog]

/-- Witness for C5's amended theorem at the concrete running session. -/
theorem reader_error_termination_witness :
    ((readIter termRunning .readErr).1.running = false ∧
     (readIter termRunning .readErr).2 = (1, true)) ∧
    ((readIter termRunning .eof).1 = termRunning ∧
     (readIter termRunning .eof).2 = (0, true)) :=
  reader_error_termination termRunning (by decide) (by decide) (by decide)

/-! ## Claim C6: Stop() idempotence and credential-file removal -/

/-- C6 counterexample: after the reader goroutine detected a read error
and cleared `running` (abnormal termination), `Stop()` takes its
`!m.running` early return (part_001:243-245) and never removes the
credential temp file: the file is still on disk after `Stop()` returns,
contradicting the claim that the file is removed even on abnormal
termination paths. -/
theorem stop_leaks_credential_cex :
    termAborted.running = false ∧
    termAborted.kubeconfigPath = some "/tmp/k8s-dojo-1.kubeconfig" ∧
    stop termAborted = termAborted ∧
    "/tmp/k8s-dojo-1.kubeconfig" ∈ (stop termAborted).disk := by decide

/-- C6 (amended): `Stop()` is idempotent, and when called on a session
that is still running it removes the credential temp file and clears the
stored path; when the session has already stopped running (e.g. after a
reader-detected error) `Stop()` returns immediately and does not remove
the file. -/
theorem stop_idempotent_removes (m' m : TermState) (p : String)
    (hr : m.running = true) (hp : m.kubeconfigPath = some p) :
    stop (stop m') = stop m' ∧
    (stop m).kubeconfigPath = none ∧
    (stop m).disk = removeFile m.disk p := by
  refine ⟨?_, ?_⟩
  · have h := stop_not_running m'
    conv_lhs => rw [stop]
    simp [h]
  · by_cases hpty : m.ptyOpen = true
    · simp [stop, hr, hp, hpty]
    · simp only [Bool.not_eq_true] at hpty
      simp [stop, hr, hp, hpty]

/-- Witness for C6's amended theorem. -/
theorem stop_idempotent_removes_witness :
    stop (stop termAborted) = stop termAborted ∧
    (stop termRunning).kubeconfigPath = none ∧
    (stop termRunning).disk = removeFile termRunning.disk "/tmp/k8s-dojo-1.kubeconfig" :=
  stop_idempotent_removes termAborted termRunning "/tmp/k8s-dojo-1.kubeconfig"
    (by decide) (by decide)

/-! ## Claim C7: Write is a no-op when not running or not focused -/

/-- C7: for every key and input string, the input-delivery operation
(key handling in `TerminalModel.Update` feeding `SendInput`) delivers no
bytes and changes no state whenever the session is not running or not
focused (the embedding is total, so no panic is possible); and any
`SendInput` after `Stop()` delivers nothing. -/
theorem write_noop_not_running_or_unfocused (m : TermState) (k : TKey) (input : String)
    (h : m.running = false ∨ m.focused = false) :
    ((termUpdate m k).1 = m ∧ (termUpdate m k).2 = []) ∧
    (sendInput (stop m) input).2 = [] := by
  constructor
  · rcases h with h | h
    · by_cases hf : m.focused = true
      · cases ht : translateKey k <;> simp [termUpdate, hf, sendInput, h, ht]
      · simp only [Bool.not_eq_true] at hf
        simp [termUpdate, hf]
    · simp [termUpdate, h]
  · simp [sendInput, stop_not_running m]

/-- Witness for C7 at the aborted session (not running). -/
theorem write_noop_witness :
    ((termUpdate termAborted .enter).1 = termAborted ∧
     (termUpdate termAborted .enter).2 = []) ∧
    (sendInput (stop termAborted) "ls\r").2 = [] :=
  write_noop_not_running_or_unfocused termAborted .enter "ls\r" (Or.inl (by decide))

/-! ## Claim C8: Start() no-op when running; spawn-failure signalling -/

/-- C8: `Start()` on a running session performs no state change, no spawn
and returns no message; from an idle session a successful `Start()` spawns
exactly one child and a second `Start()` is then a complete no-op (so two
rapid `Start()` calls spawn exactly one process); and on spawn failure
`running` stays false, an "output available" message is returned, and no
data was merged into the emulator. -/
theorem start_noop_and_spawn_failure (m : TermState) (env env2 : StartEnv) :
    (m.running = true → start m env = (m, none)) ∧
    (m.running = false → env.tmpOk = true → env.writeOk = true → env.spawnOk = true →
      (start m env).1.spawnCount = m.spawnCount + 1 ∧
      (start m env).1.running = true ∧
      start (start m env).1 env2 = ((start m env).1, none)) ∧
    (m.running = false → env.spawnOk = false →
      (start m env).1.running = false ∧
      (start m env).2 = some TMsg.outputMsg ∧
      (start m env).1.termText = m.termText ∧
      (start m env).1.spawnCount = m.spawnCount) := by
  refine ⟨fun h => start_running_noop m env h, fun hr ht hw hs => ?_, fun hr hs => ?_⟩
  · have hstep :
        (start m env).1.spawnCount = m.spawnCount + 1 ∧ (start m env).1.running = true := by
      by_cases hk : m.kubeconfig = ""
      · simp [start, hr, hk, hs]
      · simp [start, hr, hk, ht, hw, hs]
    exact ⟨hstep.1, hstep.2, start_running_noop _ env2 hstep.2⟩
  · by_cases hk : m.kubeconfig = ""
    · rcases hkp : m.kubeconfigPath with _ | p <;> simp [start, hr, hk, hs, hkp]
    · by_cases ht : env.tmpOk = true
      · by_cases hw : env.writeOk = true
        · simp [start, hr, hk, ht, hw, hs]
        · simp only [Bool.not_eq_true] at hw
          simp [start, hr, hk, ht, hw]
      · simp only [Bool.not_eq_true] at ht
        simp [start, hr, hk, ht]

/-- Witness for C8 exercising both the double-start and failure parts. -/
theorem start_noop_witness :
    start termRunning envOk = (termRunning, none) ∧
    (start termFresh envOk).1.spawnCount = termFresh.spawnCount + 1 ∧
    (start termFresh envSpawnFail).1.running = false := by
  refine ⟨(start_noop_and_spawn_failure termRunning envOk envOk).1 (by decide),
          ((start_noop_and_spawn_failure termFresh envOk envOk).2.1
            (by decide) (by decide) (by decide) (by decide)).1,
          ((start_noop_and_spawn_failure termFresh envSpawnFail envOk).2.2
            (by decide) (by decide)).1⟩

/-! ## Claim C10: spawn-failure cleanup in Start() -/

/-- C10 counterexample: on the spawn-failure path `Start()` does delete
the just-created credential file and clear the path, but the session state
is *not* entirely unchanged: `m.cmd` was already assigned the fresh
(never-started) command handle before the failure, and that assignment
survives the failed `Start()`. -/
theorem start_failure_state_cex :
    (start termFresh envSpawnFail).1.kubeconfigPath = none ∧
    (start termFresh envSpawnFail).1.disk = termFresh.disk ∧
    (start termFresh envSpawnFail).1 ≠ termFresh := by decide

/-- C10 (amended): if `Start()` creates the credential temp file and the
shell spawn then fails, `Start()` deletes the just-created file and clears
the stored credential path before returning; `running` stays false and no
on-disk residue, emulator data or spawn survives — the only surviving
state change is the stored (unstarted) command handle. -/
theorem start_failure_cleanup (m : TermState) (env : StartEnv)
    (hr : m.running = false) (hk : m.kubeconfig ≠ "")
    (ht : env.tmpOk = true) (hw : env.writeOk = true) (hs : env.spawnOk = false) :
    (start m env).1.kubeconfigPath = none ∧
    (start m env).1.disk = m.disk ∧
    (start m env).1.running = false ∧
    (start m env).1.ptyOpen = m.ptyOpen ∧
    (start m env).1.termText = m.termText ∧
    (start m env).1.spawnCount = m.spawnCount ∧
    (start m env).1.cmd = some ⟨false⟩ ∧
    (start m env).2 = some TMsg.outputMsg := by
  simp [start, hr, hk, ht, hw, hs, removeFile]

/-- Witness for C10's amended theorem. -/
theorem start_failure_cleanup_witness :
    (start termFresh envSpawnFail).1.kubeconfigPath = none ∧
    (start termFresh envSpawnFail).1.disk = termFresh.disk ∧
    (start termFresh envSpawnFail).1.running = false ∧
    (start termFresh envSpawnFail).1.ptyOpen = termFresh.ptyOpen ∧
    (start termFresh envSpawnFail).1.termText = termFresh.termText ∧
    (start termFresh envSpawnFail).1.spawnCount = termFresh.spawnCount ∧
    (start termFresh envSpawnFail).1.cmd = some ⟨false⟩ ∧
    (start termFresh envSpawnFail).2 = some TMsg.outputMsg :=
  start_failure_cleanup termFresh envSpawnFail (by decide) (by decide)
    (by decide) (by decide) (by decide)

/-! ## Claim C9: light-colour classification and black-foreground forcing -/

set_option maxRecDepth 4000 in
/-- `isLightColor` agrees with the spec's classification below the
grayscale threshold (exhaustive check). -/
theorem lc_bounded : ∀ c < 244, isLightColor c = isLightColorSpec c := by decide

/-- C9: `isLightColor` classifies exactly the indices the spec lists (7,
15, 9–14, ≥244, and colour-cube indices 16–231 with quantized R+G+B sum
≥9), and whenever the chosen background is a concrete non-sentinel index
classified light, the cell's foreground is forced to pure black
`#000000`. -/
theorem light_classification_black_fg :
    (∀ c : ℕ, isLightColor c = isLightColorSpec c) ∧
    (∀ fg bg : ℕ, ∀ focused atCursor : Bool,
      bg ≠ defaultBGInt → bg ≠ defaultFGInt → isLightColor bg = true →
      (resolveCell fg bg focused atCursor).1 = TColor.hex "#000000") := by
  constructor
  · intro c
    by_cases h : c < 244
    · exact lc_bounded c h
    · have h244 : 244 ≤ c := Nat.le_of_not_lt h
      have h7 : ¬(c = 7 ∨ c = 15) := by omega
      have h9 : ¬(9 ≤ c ∧ c ≤ 14) := by omega
      simp [isLightColor, isLightColorSpec, h7, h9, h244]
  · intro fg bg focused atCursor h1 h2 h3
    simp [resolveCell, mapBG, contrastFG, h1, h2, h3]

/-- Witness for C9 at a colour-cube index and at bright white. -/
theorem light_classification_witness :
    isLightColor 230 = isLightColorSpec 230 ∧
    (resolveCell 3 15 false false).1 = TColor.hex "#000000" :=
  ⟨light_classification_black_fg.1 230,
   light_classification_black_fg.2 3 15 false false (by decide) (by decide) (by decide)⟩

/-! ## Event-loop helper lemmas -/

theorem modifyStep_length (l : List ProgressStep) (i : Nat) (f : ProgressStep → ProgressStep) :
    (modifyStep l i f).length = l.length := by
  induction l generalizing i with
  | nil => rfl
  | cons s t ih =>
    cases i with
    | zero => rfl
    | succ n => simp [modifyStep, ih]

theorem tickSteps_length (m : AppState) : (tickSteps m).length = m.steps.length := by
  unfold tickSteps
  rw [modifyStep_length]
  split_ifs with h
  · rw [modifyStep_length]
  · rfl

/-- No key handler ever schedules the settle delay, and none of them
touches the `realDone` flag. -/
theorem dispatchKey_no_settle (m : AppState) (k : String) :
    Cmd.settleDelay ∉ (dispatchKey m k).2 ∧
    (dispatchKey m k).1.bootstrapRealDone = m.bootstrapRealDone := by
  unfold dispatchKey updateVersionSelect updateDashboard updateScenarioRunning updateSuccess
    updateConfirmRestart updateConfirmQuit enterBootstrap startSelectedScenario handleRetry
    handleReturnToDashboard
  repeat' split
  all_goals simp [apply_ite Prod.fst, apply_ite Prod.snd,
    apply_ite AppState.bootstrapRealDone, apply_ite (fun l => Cmd.settleDelay ∈ l)]

theorem updateKey_no_settle (m : AppState) (k : String) :
    Cmd.settleDelay ∉ (updateKey m k).2 ∧
    (updateKey m k).1.bootstrapRealDone = m.bootstrapRealDone := by
  unfold updateKey
  split_ifs with h1 h2 h3
  · simp
  · simp
  · exact dispatchKey_no_settle { m with focus := cycleFocus m.focus } k
  · exact dispatchKey_no_settle m k

/-- The successful completion event always sets `realDone`. -/
theorem handleBootstrapDone_success_realDone (m : AppState) :
    (handleBootstrapDone m none none).1.bootstrapRealDone = true := by
  by_cases hp : m.bootstrapStep ≥ m.steps.length <;> simp [handleBootstrapDone, hp]

/-- Check results never schedule the settle delay and never touch
`realDone`. -/
theorem handleCheckResult_no_settle (m : AppState) (s : Bool) (msg' : String) :
    Cmd.settleDelay ∉ (handleCheckResult m s msg').2 ∧
    (handleCheckResult m s msg').1.bootstrapRealDone = m.bootstrapRealDone := by
  unfold handleCheckResult
  rcases hcs : m.currentScenario with _ | id <;>
    simp only [hcs] <;> split_ifs <;> simp

/-- Whenever a step of the event loop schedules the settle delay, the
post-state has `realDone = true`. -/
theorem update_settle_realDone (m : AppState) (msg : Msg)
    (h : Cmd.settleDelay ∈ (update m msg).2) :
    (update m msg).1.bootstrapRealDone = true := by
  cases msg with
  | key k => exact absurd h (updateKey_no_settle m k).1
  | progressTick =>
      unfold update handleProgressTick at h ⊢
      split_ifs at h ⊢ <;> simp_all
  | bootstrapDone err clientErr =>
      rcases err with _ | e
      · rcases clientErr with _ | e
        · exact handleBootstrapDone_success_realDone m
        · simp [update, handleBootstrapDone] at h
      · simp [update, handleBootstrapDone] at h
  | finalDelay => simp [update, finalizeBootstrap] at h
  | scenarioStarted err =>
      rcases err with _ | e <;> simp [update, handleScenarioStarted] at h
  | checkResult s msg' =>
      exact absurd h (handleCheckResult_no_settle m s msg').1
  | tick =>
      unfold update at h
      split_ifs at h <;> simp_all
  | terminalOutput => simp [update] at h

/-- The `realDone` flag, once set, is never cleared. -/
theorem update_realDone_mono (m : AppState) (msg : Msg)
    (h : m.bootstrapRealDone = true) :
    (update m msg).1.bootstrapRealDone = true := by
  cases msg with
  | key k => exact (updateKey_no_settle m k).2.trans h
  | progressTick =>
      unfold update handleProgressTick
      split_ifs <;> simp [h]
  | bootstrapDone err clientErr =>
      rcases err with _ | e
      · rcases clientErr with _ | e
        · exact handleBootstrapDone_success_realDone m
        · simp [update, handleBootstrapDone, h]
      · simp [update, handleBootstrapDone, h]
  | finalDelay => simp [update, finalizeBootstrap, h]
  | scenarioStarted err =>
      rcases err with _ | e <;> simp [update, handleScenarioStarted, h]
  | checkResult s msg' =>
      exact (handleCheckResult_no_settle m s msg').2.trans h
  | tick =>
      unfold update
      split_ifs <;> simp [h]
  | terminalOutput => simp [update, h]

/-- Only the successful completion event `bootstrapDone none none` can set
`realDone`. -/
theorem update_realDone_false (m : AppState) (msg : Msg)
    (h : m.bootstrapRealDone = false) (hm : msg ≠ .bootstrapDone none none) :
    (update m msg).1.bootstrapRealDone = false := by
  cases msg with
  | key k => exact (updateKey_no_settle m k).2.trans h
  | progressTick =>
      unfold update handleProgressTick
      split_ifs <;> simp [h]
  | bootstrapDone err clientErr =>
      rcases err with _ | e
      · rcases clientErr with _ | e
        · exact absurd rfl hm
        · simp [update, handleBootstrapDone, h]
      · simp [update, handleBootstrapDone, h]
  | finalDelay => simp [update, finalizeBootstrap, h]
  | scenarioStarted err =>
      rcases err with _ | e <;> simp [update, handleScenarioStarted, h]
  | checkResult s msg' =>
      exact (handleCheckResult_no_settle m s msg').2.trans h
  | tick =>
      unfold update
      split_ifs <;> simp [h]
  | terminalOutput => simp [update, h]

theorem traceFrom_cons (m : AppState) (msg : Msg) (rest : List Msg) :
    traceFrom m (msg :: rest) = update m msg :: traceFrom (update m msg).1 rest := rfl

/-- Along any run from a state with `realDone = true`, every subsequent
state still has `realDone = true`. -/
theorem traceFrom_realDone_mono (msgs : List Msg) :
    ∀ m : AppState, m.bootstrapRealDone = true →
      ∀ (j : Nat) (hj : j < (traceFrom m msgs).length),
        ((traceFrom m msgs).get ⟨j, hj⟩).1.bootstrapRealDone = true := by
  induction msgs with
  | nil => intro m _ j hj; simp [traceFrom] at hj
  | cons msg rest ih =>
      intro m h j hj
      cases j with
      | zero => exact update_realDone_mono m msg h
      | succ j' =>
          have hj' : j' < (traceFrom (update m msg).1 rest).length := by
            have h2 : j' + 1 < (traceFrom (update m msg).1 rest).length + 1 := by
              simpa [traceFrom_cons] using hj
            omega
          exact ih (update m msg).1 (update_realDone_mono m msg h) j' hj'

/-! ## Claim C1: the finished signal never precedes realDone -/

/-- C1: along every run of the event loop, whenever a processed message
schedules the settle-delay "bootstrap finished" signal, the state at that
very step already has `realDone = true`, and `realDone` remains true at
every later step — the finished signal is never scheduled or emitted
before `realDone` has been observed true. -/
theorem bootstrap_no_finish_before_realDone (m : AppState) (msgs : List Msg)
    (i : Nat) (hi : i < (traceFrom m msgs).length)
    (hset : Cmd.settleDelay ∈ ((traceFrom m msgs).get ⟨i, hi⟩).2) :
    ((traceFrom m msgs).get ⟨i, hi⟩).1.bootstrapRealDone = true ∧
    ∀ (j : Nat) (hj : j < (traceFrom m msgs).length), i ≤ j →
      ((traceFrom m msgs).get ⟨j, hj⟩).1.bootstrapRealDone = true := by
  revert i
  induction msgs generalizing m with
  | nil => intro i hi; simp [traceFrom] at hi
  | cons msg rest ih =>
      intro i hi hset
      cases i with
      | zero =>
          have h0 : (update m msg).1.bootstrapRealDone = true :=
            update_settle_realDone m msg hset
          refine ⟨h0, ?_⟩
          intro j hj _
          cases j with
          | zero => exact h0
          | succ j' =>
              have hj' : j' < (traceFrom (update m msg).1 rest).length := by
                have h2 : j' + 1 < (traceFrom (update m msg).1 rest).length + 1 := by
                  simpa [traceFrom_cons] using hj
                omega
              exact traceFrom_realDone_mono rest (update m msg).1 h0 j' hj'
      | succ i' =>
          have hi' : i' < (traceFrom (update m msg).1 rest).length := by
            have h2 : i' + 1 < (traceFrom (update m msg).1 rest).length + 1 := by
              simpa [traceFrom_cons] using hi
            omega
          obtain ⟨h1, h2⟩ := ih (update m msg).1 i' hi' hset
          refine ⟨h1, ?_⟩
          intro j hj hij
          cases j with
          | zero => omega
          | succ j' =>
              have hj' : j' < (traceFrom (update m msg).1 rest).length := by
                have h3 : j' + 1 < (traceFrom (update m msg).1 rest).length + 1 := by
                  simpa [traceFrom_cons] using hj
                omega
              exact h2 j' hj' (by omega)

/-- Witness for C1 along a concrete bootstrap run: the settle delay is
scheduled while processing the successful completion event (index 4) and
`realDone` is true there. -/
theorem bootstrap_no_finish_witness :
    ((traceFrom app0 bootMsgs).get ⟨4, by decide⟩).1.bootstrapRealDone = true :=
  (bootstrap_no_finish_before_realDone app0 bootMsgs 4 (by decide) (by decide)).1

/-! ## Claim C3: behaviour after a provisioning error -/

/-- C3 counterexample: the claim states that once the error result is
processed no further animation ticks are scheduled. In the source the tick
handler keeps rescheduling (app.go:271 `return m, m.tickProgress()`)
regardless of `bootstrapErr`: from the state right after the error was
recorded mid-animation, processing one more `progressTickMsg` schedules
another tick. -/
theorem bootstrap_error_tick_cex :
    appErrMid.bootstrapErr = some "provisioning failed" ∧
    appErrMid.view = View.bootstrap ∧
    appErrMid.bootstrapStep < appErrMid.steps.length ∧
    Cmd.tickProgress ∈ (update appErrMid Msg.progressTick).2 := by decide

/-- Along any run containing no successful completion event and starting
with `realDone = false`, no step ever schedules the settle delay and
`realDone` stays false. -/
theorem trace_no_settle_of_no_success (msgs : List Msg) :
    ∀ m : AppState, m.bootstrapRealDone = false →
      Msg.bootstrapDone none none ∉ msgs →
      ∀ step ∈ traceFrom m msgs,
        Cmd.settleDelay ∉ step.2 ∧ step.1.bootstrapRealDone = false := by
  induction msgs with
  | nil => intro m _ _ step h; simp [traceFrom] at h
  | cons msg rest ih =>
      intro m hrd hsucc step hstep
      have hmsg : msg ≠ Msg.bootstrapDone none none := by
        intro hc; exact hsucc (hc ▸ List.mem_cons_self _ _)
      have hf : (update m msg).1.bootstrapRealDone = false :=
        update_realDone_false m msg hrd hmsg
      rw [traceFrom_cons] at hstep
      rcases List.mem_cons.mp hstep with h | h
      · subst h
        refine ⟨fun hs => ?_, hf⟩
        have := update_settle_realDone m msg hs
        rw [hf] at this
        exact Bool.false_ne_true this
      · exact ih (update m msg).1 hf
          (fun hc => hsucc (List.mem_cons_of_mem _ hc)) step h

/-- C3 (amended): if the provisioning task completes with an error,
`realDone` is never set and the "bootstrap finished" settle signal is
never emitted on any continuation of the run (the task completes at most
once, so no successful completion event follows); the in-flight animation
however keeps rescheduling ticks until the step cursor reaches the end of
the step list, and only then does ticking stop. -/
theorem bootstrap_error_no_finish (m : AppState) (msgs : List Msg)
    (hrd : m.bootstrapRealDone = false)
    (hsucc : Msg.bootstrapDone none none ∉ msgs) :
    (∀ step ∈ traceFrom m msgs,
       Cmd.settleDelay ∉ step.2 ∧ step.1.bootstrapRealDone = false) ∧
    (m.view = .bootstrap → m.steps.length ≤ m.bootstrapStep →
       Cmd.tickProgress ∉ (update m Msg.progressTick).2) := by
  refine ⟨trace_no_settle_of_no_success msgs m hrd hsucc, fun hv hpark => ?_⟩
  unfold update handleProgressTick
  rw [if_pos hv, if_pos hpark]
  split_ifs <;> simp

/-- Witness for C3's amended theorem: from the concrete post-error state,
the very next tick neither schedules the settle delay nor sets
`realDone`. -/
theorem bootstrap_error_no_finish_witness :
    Cmd.settleDelay ∉
      ((traceFrom appErrMid [Msg.progressTick, Msg.progressTick, Msg.progressTick]).get
        ⟨0, by decide⟩).2 ∧
    ((traceFrom appErrMid [Msg.progressTick, Msg.progressTick, Msg.progressTick]).get
        ⟨0, by decide⟩).1.bootstrapRealDone = false :=
  (bootstrap_error_no_finish appErrMid [Msg.progressTick, Msg.progressTick, Msg.progressTick]
      (by decide) (by decide)).1 _ (List.get_mem _ _ _)

/-! ## Claim C4: monotone percent and cursor -/

/-- The successful completion event on a parked animation forces all steps
complete, percent 100% and schedules the settle delay. -/
theorem handleBootstrapDone_success_parked (m : AppState)
    (hpark : m.steps.length ≤ m.bootstrapStep) :
    handleBootstrapDone m none none =
      ({ m with
          engineReady := true
          bootstrapRealDone := true
          subtitle := "Cluster ready!"
          steps := m.steps.map (fun s => { s with complete := true, active := false })
          percent := 1 }, [.settleDelay]) := by
  unfold handleBootstrapDone
  rw [if_pos hpark]

/-- The successful completion event on a still-ticking animation only
records the flag. -/
theorem handleBootstrapDone_success_waiting (m : AppState)
    (hpark : ¬ m.steps.length ≤ m.bootstrapStep) :
    handleBootstrapDone m none none =
      ({ m with
          engineReady := true
          bootstrapRealDone := true }, []) := by
  unfold handleBootstrapDone
  rw [if_neg hpark]

/-- One synchronizer event preserves the bootstrap invariant and never
decreases the displayed percent or the step cursor. -/
theorem boot_step_mono (m : AppState) (msg : Msg) (hInv : BootInv m)
    (hev : isBootEvent msg = true) :
    BootInv (update m msg).1 ∧ m.percent ≤ (update m msg).1.percent ∧
    m.bootstrapStep ≤ (update m msg).1.bootstrapStep := by
  obtain ⟨hlen, hp5, hp1⟩ := hInv
  unfold BootInv
  cases msg with
  | progressTick =>
      show BootInv (handleProgressTick m).1 ∧ m.percent ≤ (handleProgressTick m).1.percent ∧
        m.bootstrapStep ≤ (handleProgressTick m).1.bootstrapStep
      unfold BootInv handleProgressTick
      split_ifs with hv hpark hrd
      · exact ⟨⟨hlen, hp5, hp1⟩, le_refl _, le_refl _⟩
      · exact ⟨⟨hlen, hp5, hp1⟩, le_refl _, le_refl _⟩
      · have h1 : m.bootstrapStep < m.steps.length := Nat.lt_of_not_le hpark
        rw [hlen] at h1
        have hq : (((tickSteps m).length : ℕ) : ℚ) = 5 := by
          rw [tickSteps_length, hlen]; norm_num
        refine ⟨⟨?_, ?_, ?_⟩, ?_, ?_⟩
        · show (tickSteps m).length = 5
          rw [tickSteps_length, hlen]
        · show ((m.bootstrapStep : ℚ) + 1) / (((tickSteps m).length : ℕ) : ℚ) ≤
            (((m.bootstrapStep + 1 : ℕ)) : ℚ) / 5
          rw [hq]
          push_cast
          exact le_refl _
        · show ((m.bootstrapStep : ℚ) + 1) / (((tickSteps m).length : ℕ) : ℚ) ≤ 1
          rw [hq, div_le_one (by norm_num : (0:ℚ) < 5)]
          exact_mod_cast Nat.succ_le_of_lt h1
        · show m.percent ≤ ((m.bootstrapStep : ℚ) + 1) / (((tickSteps m).length : ℕ) : ℚ)
          rw [hq]
          linarith [hp5]
        · exact Nat.le_succ _
      · exact ⟨⟨hlen, hp5, hp1⟩, le_refl _, le_refl _⟩
  | finalDelay => exact ⟨⟨hlen, hp5, hp1⟩, le_refl _, le_refl _⟩
  | bootstrapDone err clientErr =>
      rcases err with _ | e
      · rcases clientErr with _ | e
        · by_cases hpark : m.steps.length ≤ m.bootstrapStep
          · have heq := handleBootstrapDone_success_parked m hpark
            show BootInv (handleBootstrapDone m none none).1 ∧
              m.percent ≤ (handleBootstrapDone m none none).1.percent ∧
              m.bootstrapStep ≤ (handleBootstrapDone m none none).1.bootstrapStep
            rw [heq]
            unfold BootInv
            refine ⟨⟨?_, ?_, ?_⟩, ?_, ?_⟩
            · show (m.steps.map (fun s => { s with complete := true, active := false })).length = 5
              rw [List.length_map, hlen]
            · show (1 : ℚ) ≤ (m.bootstrapStep : ℚ) / 5
              rw [le_div_iff₀ (by norm_num : (0:ℚ) < 5), one_mul]
              rw [hlen] at hpark
              exact_mod_cast hpark
            · exact le_refl 1
            · exact hp1
            · exact le_refl _
          · have heq := handleBootstrapDone_success_waiting m hpark
            show BootInv (handleBootstrapDone m none none).1 ∧
              m.percent ≤ (handleBootstrapDone m none none).1.percent ∧
              m.bootstrapStep ≤ (handleBootstrapDone m none none).1.bootstrapStep
            rw [heq]
            exact ⟨⟨hlen, hp5, hp1⟩, le_refl _, le_refl _⟩
        · exact ⟨⟨hlen, hp5, hp1⟩, le_refl _, le_refl _⟩
      · exact ⟨⟨hlen, hp5, hp1⟩, le_refl _, le_refl _⟩
  | key k => simp [isBootEvent] at hev
  | scenarioStarted err => simp [isBootEvent] at hev
  | checkResult s msg' => simp [isBootEvent] at hev
  | tick => simp [isBootEvent] at hev
  | terminalOutput => simp [isBootEvent] at hev

/-- Chain form of the invariant-based monotonicity, by induction over the
event list. -/
theorem bootstrap_monotone_aux (msgs : List Msg) :
    ∀ m : AppState, BootInv m → (∀ msg ∈ msgs, isBootEvent msg = true) →
      List.Chain' (fun a b => a.percent ≤ b.percent ∧ a.bootstrapStep ≤ b.bootstrapStep)
        (m :: (traceFrom m msgs).map Prod.fst) := by
  induction msgs with
  | nil => intro m _ _; simp [traceFrom]
  | cons msg rest ih =>
      intro m hInv hmsgs
      have h1 := boot_step_mono m msg hInv (hmsgs msg (List.mem_cons_self _ _))
      rw [traceFrom_cons, List.map_cons, List.chain'_cons]
      exact ⟨⟨h1.2.1, h1.2.2⟩,
        ih (update m msg).1 h1.1 (fun x hx => hmsgs x (List.mem_cons_of_mem _ hx))⟩

/-- C4: for every sequence of synchronizer events (animation ticks,
real-task completion events, settle expiry) from a state satisfying the
bootstrap invariant, the displayed percent and the step cursor are
monotonically non-decreasing along the whole run. -/
theorem bootstrap_monotone (m : AppState) (msgs : List Msg) (hInv : BootInv m)
    (hmsgs : ∀ msg ∈ msgs, isBootEvent msg = true) :
    List.Chain' (fun a b => a.percent ≤ b.percent ∧ a.bootstrapStep ≤ b.bootstrapStep)
      (m :: (traceFrom m msgs).map Prod.fst) :=
  bootstrap_monotone_aux msgs m hInv hmsgs

/-- The Bootstrap entry state satisfies the invariant. -/
theorem appBoot_bootInv : BootInv appBoot := by
  unfold BootInv
  refine ⟨by decide, ?_, ?_⟩
  · show ((2 : ℚ) / ((initSteps.length : ℕ) : ℚ)) ≤ ((2 : ℕ) : ℚ) / 5
    norm_num [initSteps]
  · show ((2 : ℚ) / ((initSteps.length : ℕ) : ℚ)) ≤ 1
    norm_num [initSteps]

/-- Witness for C4 on a concrete two-tick run from the Bootstrap entry
state. -/
theorem bootstrap_monotone_witness :
    List.Chain' (fun a b => a.percent ≤ b.percent ∧ a.bootstrapStep ≤ b.bootstrapStep)
      (appBoot :: (traceFrom appBoot [Msg.progressTick, Msg.progressTick]).map Prod.fst) :=
  bootstrap_monotone appBoot [Msg.progressTick, Msg.progressTick]
    appBoot_bootInv (by decide)

/-! ## Claim C2: modal cancel behaviour -/

theorem update_key_eq (m : AppState) (k : String) :
    update m (.key k) = updateKey m k := rfl

/-- Pressing the quit key from a non-modal, non-Bootstrap view (with quit
allowed) records the interrupted view and opens ConfirmQuit defaulting to
"No". -/
theorem updateKey_quit_entry (m : AppState)
    (h1 : m.view ≠ .confirmQuit) (h2 : m.view ≠ .confirmRestart) (h3 : m.view ≠ .bootstrap)
    (h4 : ¬(m.view = .scenarioRunning ∧ m.focus = .terminal)) :
    updateKey m "q" =
      ({ m with previousView := m.view, view := .confirmQuit, confirmSelection := 1 }, []) := by
  have ha : allowQuit m = true := by simp [allowQuit, h4]
  unfold updateKey
  rw [if_neg (fun hc => h3 hc.2.2), if_pos ⟨ha, by decide, fun hc => hc.elim h1 h2⟩]

/-- Keys pressed while a confirm modal is open fall through the global
quit handler to the modal's own handler. -/
theorem updateKey_modal_dispatch (m : AppState) (k : String)
    (hv : m.view = .confirmQuit ∨ m.view = .confirmRestart) :
    updateKey m k = dispatchKey m k := by
  have hnb : m.view ≠ .bootstrap := by rcases hv with h | h <;> simp [h]
  have hns : ¬ (kmatches k tabKeys = true ∧ m.view = .scenarioRunning) := by
    rcases hv with h | h <;> simp [h]
  unfold updateKey
  rw [if_neg (fun hc => hnb hc.2.2), if_neg (fun hc => hc.2.2 hv), if_neg hns]

/-- Keys matching neither the quit nor the Tab binding go straight to the
per-view dispatch. -/
theorem updateKey_plain_dispatch (m : AppState) (k : String)
    (hq : kmatches k quitKeys = false) (ht : kmatches k tabKeys = false) :
    updateKey m k = dispatchKey m k := by
  have c1 : ¬(allowQuit m = true ∧ kmatches k quitKeys = true ∧ m.view = .bootstrap) := by
    simp [hq]
  have c2 : ¬(allowQuit m = true ∧ kmatches k quitKeys = true ∧
      ¬(m.view = .confirmQuit ∨ m.view = .confirmRestart)) := by
    simp [hq]
  have c3 : ¬(kmatches k tabKeys = true ∧ m.view = .scenarioRunning) := by
    simp [ht]
  unfold updateKey
  rw [if_neg c1, if_neg c2, if_neg c3]

theorem updateConfirmQuit_esc (m : AppState) :
    updateConfirmQuit m "esc" = ({ m with view := m.previousView }, []) := by
  unfold updateConfirmQuit
  rw [if_neg (by decide), if_neg (by decide), if_neg (by decide), if_pos (by decide)]

theorem updateConfirmQuit_qkey (m : AppState) :
    updateConfirmQuit m "q" = ({ m with view := m.previousView }, []) := by
  unfold updateConfirmQuit
  rw [if_neg (by decide), if_neg (by decide), if_neg (by decide), if_pos (by decide)]

theorem updateConfirmQuit_n (m : AppState) :
    updateConfirmQuit m "n" = ({ m with view := m.previousView }, []) := by
  unfold updateConfirmQuit
  rw [if_neg (by decide), if_neg (by decide), if_neg (by decide), if_neg (by decide),
    if_neg (by decide), if_pos (by decide)]

/-- Enter with "No" selected in ConfirmQuit goes to the Dashboard, not to
the recorded previous view. -/
theorem updateConfirmQuit_enter_no (m : AppState) (hsel : m.confirmSelection = 1) :
    updateConfirmQuit m "enter" = ({ m with view := .dashboard }, []) := by
  unfold updateConfirmQuit
  rw [if_neg (by decide), if_neg (by decide), if_pos (by decide),
    if_neg (by simp [hsel])]

theorem updateConfirmRestart_esc (m : AppState) :
    updateConfirmRestart m "esc" =
      ({ m with view := .dashboard, currentScenario := none }, []) := by
  unfold updateConfirmRestart
  rw [if_neg (by decide), if_neg (by decide), if_neg (by decide), if_pos (by decide)]

theorem updateConfirmRestart_qkey (m : AppState) :
    updateConfirmRestart m "q" =
      ({ m with view := .dashboard, currentScenario := none }, []) := by
  unfold updateConfirmRestart
  rw [if_neg (by decide), if_neg (by decide), if_neg (by decide), if_pos (by decide)]

theorem updateConfirmRestart_n (m : AppState) :
    updateConfirmRestart m "n" =
      ({ m with view := .dashboard, currentScenario := none }, []) := by
  unfold updateConfirmRestart
  rw [if_neg (by decide), if_neg (by decide), if_neg (by decide), if_neg (by decide),
    if_neg (by decide), if_pos (by decide)]

theorem updateConfirmRestart_enter_no (m : AppState) (hsel : m.confirmSelection = 1) :
    updateConfirmRestart m "enter" =
      ({ m with view := .dashboard, currentScenario := none }, []) := by
  unfold updateConfirmRestart
  rw [if_neg (by decide), if_neg (by decide), if_pos (by decide),
    if_neg (by simp [hsel])]

/-- Cancel inputs in an open ConfirmQuit: Escape, the quit key and `n`
restore the recorded previous view; Enter on "No" goes to the
Dashboard. -/
theorem updateKey_cq_cancel (s : AppState) (hv : s.view = .confirmQuit) :
    (updateKey s "esc").1.view = s.previousView ∧
    (updateKey s "q").1.view = s.previousView ∧
    (updateKey s "n").1.view = s.previousView ∧
    (s.confirmSelection = 1 → (updateKey s "enter").1.view = .dashboard) := by
  have hd : ∀ k, updateKey s k = updateConfirmQuit s k := by
    intro k
    rw [updateKey_modal_dispatch s k (Or.inl hv)]
    unfold dispatchKey
    rw [hv]
  refine ⟨?_, ?_, ?_, fun hsel => ?_⟩
  · rw [hd, updateConfirmQuit_esc]
  · rw [hd, updateConfirmQuit_qkey]
  · rw [hd, updateConfirmQuit_n]
  · rw [hd, updateConfirmQuit_enter_no s hsel]

/-- Every cancel input in an open ConfirmRestart returns to the
Dashboard. -/
theorem updateKey_cr_cancel (s : AppState) (hv : s.view = .confirmRestart) :
    (updateKey s "esc").1.view = .dashboard ∧
    (updateKey s "q").1.view = .dashboard ∧
    (updateKey s "n").1.view = .dashboard ∧
    (s.confirmSelection = 1 → (updateKey s "enter").1.view = .dashboard) := by
  have hd : ∀ k, updateKey s k = updateConfirmRestart s k := by
    intro k
    rw [updateKey_modal_dispatch s k (Or.inr hv)]
    unfold dispatchKey
    rw [hv]
  refine ⟨?_, ?_, ?_, fun hsel => ?_⟩
  · rw [hd, updateConfirmRestart_esc]
  · rw [hd, updateConfirmRestart_qkey]
  · rw [hd, updateConfirmRestart_n]
  · rw [hd, updateConfirmRestart_enter_no s hsel]

/-- Enter in the Dashboard on a selected, already-completed scenario opens
ConfirmRestart defaulting to "No". -/
theorem updateDashboard_enter_completed (m : AppState) (id : String)
    (hsel : m.sidebarSelected = some (id, false)) (hreg : id ∈ m.registry)
    (hcomp : id ∈ m.completedScenarios) :
    updateDashboard m "enter" =
      ({ m with
          currentScenario := some id
          view := .confirmRestart
          confirmSelection := 1 }, []) := by
  unfold updateDashboard
  rw [if_pos (by decide), hsel]
  simp [hreg, hcomp]

/-- C2 counterexample: cancelling ConfirmQuit by selecting "No" and
pressing Enter does not restore the interrupted view. From the Success
view, quit opens the modal (selection defaulting to "No" = 1); Enter then
lands on the Dashboard, not on Success, while Escape does restore
Success. -/
theorem confirm_cancel_cex :
    appSuccess.view = View.success ∧
    (runMsgs appSuccess [.key "q"]).view = View.confirmQuit ∧
    (runMsgs appSuccess [.key "q"]).confirmSelection = 1 ∧
    (runMsgs appSuccess [.key "q", .key "enter"]).view = View.dashboard ∧
    (runMsgs appSuccess [.key "q", .key "esc"]).view = View.success := by decide

/-- C2 (amended): entering ConfirmQuit from any non-modal, non-Bootstrap
view V (with quit not suppressed) records V; cancelling with Escape, the
quit key or `n` restores exactly V, while cancelling by selecting "No" and
pressing Enter always lands on the Dashboard (which equals V only when the
modal was entered from the Dashboard). ConfirmRestart is entered only from
the Dashboard, and every cancel input returns to the Dashboard, restoring
the interrupted view exactly. -/
theorem confirm_cancel_restores (m : AppState) (id : String)
    (h1 : m.view ≠ .confirmQuit) (h2 : m.view ≠ .confirmRestart)
    (h3 : m.view ≠ .bootstrap) (h4 : ¬(m.view = .scenarioRunning ∧ m.focus = .terminal)) :
    ((runMsgs m [.key "q"]).view = .confirmQuit ∧
     (runMsgs m [.key "q"]).previousView = m.view ∧
     (runMsgs m [.key "q"]).confirmSelection = 1 ∧
     (runMsgs m [.key "q", .key "esc"]).view = m.view ∧
     (runMsgs m [.key "q", .key "q"]).view = m.view ∧
     (runMsgs m [.key "q", .key "n"]).view = m.view ∧
     (runMsgs m [.key "q", .key "enter"]).view = .dashboard) ∧
    (m.view = .dashboard → m.sidebarSelected = some (id, false) → id ∈ m.registry →
     id ∈ m.completedScenarios →
       (runMsgs m [.key "enter"]).view = .confirmRestart ∧
       (runMsgs m [.key "enter", .key "esc"]).view = m.view ∧
       (runMsgs m [.key "enter", .key "q"]).view = m.view ∧
       (runMsgs m [.key "enter", .key "n"]).view = m.view ∧
       (runMsgs m [.key "enter", .key "enter"]).view = m.view) := by
  have hq := updateKey_quit_entry m h1 h2 h3 h4
  constructor
  · have hcq := updateKey_cq_cancel (updateKey m "q").1 (by rw [hq])
    refine ⟨?_, ?_, ?_, ?_, ?_, ?_, ?_⟩
    · show (updateKey m "q").1.view = View.confirmQuit
      rw [hq]
    · show (updateKey m "q").1.previousView = m.view
      rw [hq]
    · show (updateKey m "q").1.confirmSelection = 1
      rw [hq]
    · show (updateKey (updateKey m "q").1 "esc").1.view = m.view
      rw [hcq.1, hq]
    · show (updateKey (updateKey m "q").1 "q").1.view = m.view
      rw [hcq.2.1, hq]
    · show (updateKey (updateKey m "q").1 "n").1.view = m.view
      rw [hcq.2.2.1, hq]
    · show (updateKey (updateKey m "q").1 "enter").1.view = View.dashboard
      exact hcq.2.2.2 (by rw [hq])
  · intro hd hsel hreg hcomp
    have hde := updateDashboard_enter_completed m id hsel hreg hcomp
    have hed : updateKey m "enter" = updateDashboard m "enter" := by
      rw [updateKey_plain_dispatch m "enter" (by decide) (by decide)]
      unfold dispatchKey
      rw [hd]
    have hcr := updateKey_cr_cancel (updateKey m "enter").1 (by rw [hed, hde])
    refine ⟨?_, ?_, ?_, ?_, ?_⟩
    · show (updateKey m "enter").1.view = View.confirmRestart
      rw [hed, hde]
    · show (updateKey (updateKey m "enter").1 "esc").1.view = m.view
      rw [hcr.1, hd]
    · show (updateKey (updateKey m "enter").1 "q").1.view = m.view
      rw [hcr.2.1, hd]
    · show (updateKey (updateKey m "enter").1 "n").1.view = m.view
      rw [hcr.2.2.1, hd]
    · show (updateKey (updateKey m "enter").1 "enter").1.view = m.view
      rw [hcr.2.2.2 (by rw [hed, hde]), hd]

/-- Witness for C2's amended theorem at the concrete Dashboard state with
a completed scenario selected: the modal round-trips restore the
Dashboard. -/
theorem confirm_cancel_witness :
    (runMsgs appDash [.key "q", .key "esc"]).view = appDash.view ∧
    (runMsgs appDash [.key "enter"]).view = View.confirmRestart ∧
    (runMsgs appDash [.key "enter", .key "n"]).view = appDash.view := by
  have h := confirm_cancel_restores appDash "sched-taint"
    (by decide) (by decide) (by decide) (by decide)
  have h2 := h.2 rfl rfl (by decide) (by decide)
  exact ⟨h.1.2.2.2.1, h2.1, h2.2.2.2.1⟩

end K8sDojo
